import Mathlib

/-!
Verification of the SimpleLang front end (lexer + recursive-descent parser),
a shallow embedding of the Python sources `tokens.py`, `errors.py`,
`lexer.py` and `parser.py`, followed by theorems about the embedding.

Conventions:

* Source text is modelled as `List Char`; the scanner's forward cursor
  becomes recursion on the remaining character list together with explicit
  `line`/`column` counters (1-based, exactly as in `lexer.py`).  The
  scanner's main while-loop carries an iteration budget (`fuel`) so that
  every definition is executable by kernel reduction; the theorem
  `tokenizeLoop_fuel` proves the budget is irrelevant once it exceeds the
  number of remaining characters — i.e. the loop genuinely terminates
  within one step per input character, which is the totality content of
  the scanner.
* Python exceptions are modelled by an explicit error channel: parser
  routines return either `ok value pos errs` or `err exc pos errs`,
  where `pos` is the token cursor and `errs` the `ErrorReporter.errors`
  list at the moment of return (Python object state survives a raise, so
  the error constructor carries the state too).
* Python's bounded call stack (`RecursionError` past the interpreter's
  recursion limit) is modelled by a `fuel : Nat` depth budget on the
  mutually recursive parser routines; exhausting it produces the
  Python-level exception `PExc.py pyRecursionError`, which the source's
  own `except Exception` handlers convert, exactly as CPython would.
  While-loops in `parser.py` do not consume stack; their embeddings carry
  a separate iteration budget of `tokens.length + 1`, which cannot be
  exhausted as long as every iteration strictly advances the cursor; the
  exhausted case models Python's divergence (an infinite loop) and is
  unreachable for EOF-terminated token lists.
* `tokens.py` defines no `INPUT` member of `TokenType`, yet `parser.py`
  line 138 evaluates `TokenType.INPUT`; in CPython this raises
  `AttributeError` whenever that line executes.  The embedding models this
  faithfully as the Python-level exception `PExc.py attrErrorINPUT` at the
  corresponding program point.  (`grammar.py` likewise defines no
  `InputNode`, so `parse_input_statement`, were it reachable, would fail
  with `NameError`; see `parse_input_statement` below.)
* Diagnostic message strings are kept close to the Python originals but
  quote characters inside them are elided; no theorem depends on message
  punctuation.
-/

namespace SimpleLang

set_option maxRecDepth 100000

/-- `TokenType` from `tokens.py` (note: there is no `INPUT` member). -/
inductive TokenType where
  | INT | BOOL | STRING | IF | ELSE | FOR | WHILE | TRUE | FALSE | PRINT
  | PLUS | MINUS | MULTIPLY | DIVIDE | MODULO | ASSIGN
  | LESS_THAN | GREATER_THAN | LESS_EQUAL | GREATER_EQUAL | EQUAL | NOT_EQUAL
  | AND | OR | NOT
  | SEMICOLON | LEFT_BRACE | RIGHT_BRACE | LEFT_PAREN | RIGHT_PAREN | COMMA
  | IDENTIFIER | INTEGER | STRING_LITERAL
  | EOF | NEWLINE
deriving DecidableEq, Repr

/-- `TokenType.name` (Python's `Enum.name`), used in diagnostics. -/
def TokenType.name : TokenType → String
  | .INT => "INT" | .BOOL => "BOOL" | .STRING => "STRING"
  | .IF => "IF" | .ELSE => "ELSE" | .FOR => "FOR" | .WHILE => "WHILE"
  | .TRUE => "TRUE" | .FALSE => "FALSE" | .PRINT => "PRINT"
  | .PLUS => "PLUS" | .MINUS => "MINUS" | .MULTIPLY => "MULTIPLY"
  | .DIVIDE => "DIVIDE" | .MODULO => "MODULO" | .ASSIGN => "ASSIGN"
  | .LESS_THAN => "LESS_THAN" | .GREATER_THAN => "GREATER_THAN"
  | .LESS_EQUAL => "LESS_EQUAL" | .GREATER_EQUAL => "GREATER_EQUAL"
  | .EQUAL => "EQUAL" | .NOT_EQUAL => "NOT_EQUAL"
  | .AND => "AND" | .OR => "OR" | .NOT => "NOT"
  | .SEMICOLON => "SEMICOLON" | .LEFT_BRACE => "LEFT_BRACE"
  | .RIGHT_BRACE => "RIGHT_BRACE" | .LEFT_PAREN => "LEFT_PAREN"
  | .RIGHT_PAREN => "RIGHT_PAREN" | .COMMA => "COMMA"
  | .IDENTIFIER => "IDENTIFIER" | .INTEGER => "INTEGER"
  | .STRING_LITERAL => "STRING_LITERAL" | .EOF => "EOF" | .NEWLINE => "NEWLINE"

/-- The `value` field of a `Token` (`Any` in Python: ints for `INTEGER`
tokens, strings for everything else). -/
inductive TokValue where
  | intV (n : Nat)
  | strV (s : String)
deriving DecidableEq, Repr

/-- `Token` dataclass from `tokens.py`. -/
structure Token where
  type : TokenType
  value : TokValue
  line : Nat
  column : Nat
deriving DecidableEq, Repr

/-- The `KEYWORDS` dict from `tokens.py`.  `dikhao` maps to `PRINT`;
there is no entry for `likho` (no input keyword exists). -/
def KEYWORDS (s : String) : Option TokenType :=
  if s = "int" then some .INT
  else if s = "bool" then some .BOOL
  else if s = "string" then some .STRING
  else if s = "if" then some .IF
  else if s = "else" then some .ELSE
  else if s = "for" then some .FOR
  else if s = "while" then some .WHILE
  else if s = "true" then some .TRUE
  else if s = "false" then some .FALSE
  else if s = "dikhao" then some .PRINT
  else none

/-- The `SINGLE_CHAR_TOKENS` dict from `tokens.py`. -/
def SINGLE_CHAR_TOKENS (c : Char) : Option TokenType :=
  if c = '+' then some .PLUS
  else if c = '-' then some .MINUS
  else if c = '*' then some .MULTIPLY
  else if c = '/' then some .DIVIDE
  else if c = '%' then some .MODULO
  else if c = '=' then some .ASSIGN
  else if c = '<' then some .LESS_THAN
  else if c = '>' then some .GREATER_THAN
  else if c = '!' then some .NOT
  else if c = ';' then some .SEMICOLON
  else if c = '\x7b' then some .LEFT_BRACE
  else if c = '\x7d' then some .RIGHT_BRACE
  else if c = '(' then some .LEFT_PAREN
  else if c = ')' then some .RIGHT_PAREN
  else if c = ',' then some .COMMA
  else none

/-- The `DOUBLE_CHAR_TOKENS` dict from `tokens.py`, keyed by the two
characters of the operator. -/
def DOUBLE_CHAR_TOKENS (c1 c2 : Char) : Option TokenType :=
  if c1 = '<' ∧ c2 = '=' then some .LESS_EQUAL
  else if c1 = '>' ∧ c2 = '=' then some .GREATER_EQUAL
  else if c1 = '=' ∧ c2 = '=' then some .EQUAL
  else if c1 = '!' ∧ c2 = '=' then some .NOT_EQUAL
  else if c1 = '&' ∧ c2 = '&' then some .AND
  else if c1 = '|' ∧ c2 = '|' then some .OR
  else none

/-- `LexicalError` from `errors.py`: message plus 1-based position. -/
structure LexErr where
  msg : String
  line : Nat
  col : Nat
deriving DecidableEq, Repr

/-- `Lexer.advance` position bookkeeping: consuming `c` bumps the line
counter on a newline (resetting the column to 1), else bumps the column. -/
def advancePos (c : Char) (line col : Nat) : Nat × Nat :=
  if c = '\n' then (line + 1, 1) else (line, col + 1)

/-- Result of `Lexer.read_string_literal`: the decoded value or a
`LexicalError`, in both cases together with the remaining input and the
cursor position afterwards (Python's lexer state survives the raise). -/
inductive StrRes where
  | ok (value : String) (rest : List Char) (line col : Nat)
  | err (e : LexErr) (rest : List Char) (line col : Nat)
deriving DecidableEq, Repr

/-- The remaining input carried by a `StrRes`. -/
def StrRes.restOf : StrRes → List Char
  | .ok _ r _ _ => r
  | .err _ r _ _ => r

/-- The scan loop of `Lexer.read_string_literal` (lines 80-109 of
`lexer.py`), entered after the opening quote has been consumed.
`startCol` is the column of the opening quote (`start_col` in the source);
every unterminated-string error is raised at `(self.line, start_col)` —
the *current* line paired with the opening quote's column. -/
def stringLoop : List Char → Nat → Nat → Nat → String → StrRes
  | [], line, col, startCol, _ =>
      -- current char is None: the while loop exits, then line 111 raises
      .err ⟨"Unterminated string literal", line, startCol⟩ [] line col
  | c :: rest, line, col, startCol, value =>
    if c = '"' then
      -- closing quote: advance past it and return the decoded value
      .ok value rest line (col + 1)
    else if c = '\\' then
      match rest with
      | [] =>
          -- advance past the backslash, next_char is None: line 89 raises
          .err ⟨"Unterminated string literal", line, startCol⟩ [] line (col + 1)
      | n :: rest2 =>
          -- escape decoding, lines 91-102: n, t, r, backslash and quote
          -- decode to their standard meanings, anything else to itself
          let d : Char :=
            if n = 'n' then '\n'
            else if n = 't' then '\t'
            else if n = 'r' then '\r'
            else if n = '\\' then '\\'
            else if n = '"' then '"'
            else n
          let lc := advancePos n line (col + 1)
          stringLoop rest2 lc.1 lc.2 startCol (value.push d)
    else if c = '\n' then
      -- unescaped newline, not consumed: line 106 raises
      .err ⟨"Unterminated string literal", line, startCol⟩ (c :: rest) line col
    else
      stringLoop rest line (col + 1) startCol (value.push c)
  termination_by structural cs _ _ _ _ => cs

/-- `Lexer.read_string_literal` (lines 69-115 of `lexer.py`); the cursor
is expected to sit on the opening quote. -/
def read_string_literal (cs : List Char) (line col : Nat) : StrRes :=
  match cs with
  | '"' :: rest => stringLoop rest line (col + 1) col ""
  | _ =>
      -- line 75: current char is not a quote (unreachable from tokenize)
      .err ⟨"Expected quote at start of string", line, col⟩ cs line col

/-- Python `int()` on a digit string (`Lexer.read_number`). -/
def digitsToNat (ds : List Char) : Nat :=
  ds.foldl (fun a c => a * 10 + (c.toNat - 48)) 0

/-- The continuation test of `Lexer.read_identifier`:
`isalnum() or c == '_'` (ASCII reading). -/
def identCont (c : Char) : Bool :=
  c.isAlpha || c.isDigit || c = '_'

/-- The whole state of `Lexer.tokenize`'s scan loop: remaining input,
cursor position, tokens emitted so far and `ErrorReporter.errors`. -/
structure LoopSt where
  cs : List Char
  line : Nat
  col : Nat
  toks : List Token
  errs : List LexErr
deriving DecidableEq, Repr

/-- One iteration of the scan loop of `Lexer.tokenize` (lines 165-237 of
`lexer.py`) on a non-empty input `c :: rest`, one source branch per
priority class, in the source's order.  Whitespace is consumed one
character per iteration, which is observably identical to the source's
`skip_whitespace` call at the top of every iteration. -/
def lexStep (c : Char) (rest : List Char) (line col : Nat)
    (toks : List Token) (errs : List LexErr) : LoopSt :=
  if c = ' ' ∨ c = '\t' then
    -- skip_whitespace (line 167)
    ⟨rest, line, col + 1, toks, errs⟩
  else if c = '\n' then
    -- newline handling (line 177)
    ⟨rest, line + 1, 1, toks, errs⟩
  else if c = '/' ∧ rest.head? = some '/' then
    -- comment: discard to end of line, columns still advance (line 182)
    ⟨rest.dropWhile (fun x => x ≠ '\n'), line,
      col + 1 + (rest.takeWhile (fun x => x ≠ '\n')).length, toks, errs⟩
  else if c = '"' then
    -- string literal (lines 187-196)
    match read_string_literal (c :: rest) line col with
    | .ok v rest2 line2 col2 =>
        ⟨rest2, line2, col2, toks ++ [⟨.STRING_LITERAL, .strV v, line, col⟩], errs⟩
    | .err e rest2 line2 col2 =>
        -- report the error, then skip the problematic character (line 195)
        match rest2 with
        | [] => ⟨[], line2, col2, toks, errs ++ [e]⟩
        | x :: xs =>
            ⟨xs, (advancePos x line2 col2).1, (advancePos x line2 col2).2,
              toks, errs ++ [e]⟩
  else if c.isDigit then
    -- integer literal (line 199): a maximal run of digits
    ⟨rest.dropWhile Char.isDigit, line, col + 1 + (rest.takeWhile Char.isDigit).length,
      toks ++ [⟨.INTEGER, .intV (digitsToNat (c :: rest.takeWhile Char.isDigit)), line, col⟩],
      errs⟩
  else if c.isAlpha then
    -- identifier or keyword (line 206): a maximal run of ident chars,
    -- resolved against KEYWORDS with IDENTIFIER as the default
    let s : String := ⟨c :: rest.takeWhile identCont⟩
    ⟨rest.dropWhile identCont, line, col + 1 + (rest.takeWhile identCont).length,
      toks ++ [⟨(KEYWORDS s).getD .IDENTIFIER, .strV s, line, col⟩], errs⟩
  else
    -- operators and symbols (lines 214-226); read_operator checks the
    -- two-character table before the single-character one, and a
    -- character matching neither table is the unknown-character error of
    -- line 229, reported and skipped
    match rest.head? with
    | some c2 =>
      match DOUBLE_CHAR_TOKENS c c2 with
      | some tt =>
          ⟨rest.tail, line, col + 2, toks ++ [⟨tt, .strV ⟨[c, c2]⟩, line, col⟩], errs⟩
      | none =>
        match SINGLE_CHAR_TOKENS c with
        | some tt =>
            ⟨rest, line, col + 1, toks ++ [⟨tt, .strV ⟨[c]⟩, line, col⟩], errs⟩
        | none =>
            ⟨rest, line, col + 1, toks, errs ++ [⟨"Unexpected character", line, col⟩]⟩
    | none =>
      match SINGLE_CHAR_TOKENS c with
      | some tt =>
          ⟨rest, line, col + 1, toks ++ [⟨tt, .strV ⟨[c]⟩, line, col⟩], errs⟩
      | none =>
          ⟨rest, line, col + 1, toks, errs ++ [⟨"Unexpected character", line, col⟩]⟩

/-- Result of `Lexer.tokenize`: the token list, the `ErrorReporter`
entries, and the final cursor line/column. -/
structure LexResult where
  tokens : List Token
  errors : List LexErr
  line : Nat
  col : Nat
deriving DecidableEq, Repr

/-- The scan loop of `Lexer.tokenize`: one `lexStep` per iteration while
input remains.  `fuel` is an iteration budget making the definition
executable by kernel reduction; by `tokenizeLoop_fuel` any budget larger
than the number of remaining characters yields the same result, so the
budget of `tokenize` is never exhausted. -/
def tokenizeLoop : Nat → LoopSt → LexResult
  | 0, st => ⟨st.toks, st.errs, st.line, st.col⟩
  | fuel + 1, st =>
    match st.cs with
    | [] => ⟨st.toks, st.errs, st.line, st.col⟩
    | c :: rest => tokenizeLoop fuel (lexStep c rest st.line st.col st.toks st.errs)

/-- `Lexer.tokenize` (lines 161-241 of `lexer.py`): run the scan loop over
the whole source, then append the EOF token at the final cursor position
(line 240). -/
def tokenize (source : List Char) : LexResult :=
  let r := tokenizeLoop (source.length + 1) ⟨source, 1, 1, [], []⟩
  ⟨r.tokens ++ [⟨.EOF, .strV "", r.line, r.col⟩], r.errors, r.line, r.col⟩


/-! ## AST model (`grammar.py`)

`grammar.py` declares dataclasses for AST nodes; every node carries
`line`/`column`.  The parser constructs `Program`, `DeclareNode`,
`DeclareAndAssignNode`, `Assignment`, `IfStatement`, `WhileStatement`,
`ForStatement`, `Block`, `PrintNode` and the expression nodes.
(`InputNode` is *not* defined in `grammar.py`; see
`parse_input_statement`.) -/

/-- Expression nodes from `grammar.py`.  Identifier/literal payloads hold
the token's `value` field unchanged, as the Python constructors do. -/
inductive Expr where
  | binary (left : Expr) (operator : TokenType) (right : Expr) (line col : Nat)
  | unary (operator : TokenType) (operand : Expr) (line col : Nat)
  | identifier (name : TokValue) (line col : Nat)
  | integerLit (value : TokValue) (line col : Nat)
  | booleanLit (value : Bool) (line col : Nat)
  | stringLit (value : TokValue) (line col : Nat)
deriving DecidableEq, Repr

/-- The `line` attribute of an expression node. -/
def Expr.lineOf : Expr → Nat
  | .binary _ _ _ l _ => l
  | .unary _ _ l _ => l
  | .identifier _ l _ => l
  | .integerLit _ l _ => l
  | .booleanLit _ l _ => l
  | .stringLit _ l _ => l

/-- The `column` attribute of an expression node. -/
def Expr.colOf : Expr → Nat
  | .binary _ _ _ _ c => c
  | .unary _ _ _ c => c
  | .identifier _ _ c => c
  | .integerLit _ _ c => c
  | .booleanLit _ _ c => c
  | .stringLit _ _ c => c

/-- Statement nodes from `grammar.py` as constructed by `parser.py`:
`DeclareNode`, `DeclareAndAssignNode`, `Assignment`, `IfStatement`,
`WhileStatement`, `ForStatement`, `Block`, `PrintNode`. -/
inductive Stmt where
  | declare (typeTok : TokenType) (ident : TokValue) (line col : Nat)
  | declareAssign (typeTok : TokenType) (ident : TokValue) (value : Expr) (line col : Nat)
  | assign (ident : TokValue) (value : Expr) (line col : Nat)
  | ifStmt (condition : Expr) (thenStmt : Stmt) (elseStmt : Option Stmt) (line col : Nat)
  | whileStmt (condition : Expr) (body : Stmt) (line col : Nat)
  | forStmt (init : Option Stmt) (condition : Expr) (update : Option Stmt) (body : Stmt) (line col : Nat)
  | block (stmts : List Stmt) (line col : Nat)
  | printStmt (args : List Expr) (line col : Nat)

/-- `Program` from `grammar.py`; `parse_program` constructs it at
position (1, 1). -/
structure Program where
  statements : List Stmt
  line : Nat
  col : Nat

/-! ## Diagnostics and the parser's error channel (`errors.py`) -/

/-- An `ErrorReporter.errors` entry: a `LexicalError`, `SyntaxError` or
`ParseError` object (`errors.py`).  `SyntaxError` carries the
expected/found descriptions it was built from. -/
inductive Diag where
  | lexErr (e : LexErr)
  | synErr (msg : String) (line col : Nat) (expected found : String)
  | parseErr (msg : String) (line col : Nat)
deriving DecidableEq, Repr

/-- An in-flight Python exception inside the parser: a raised
`SyntaxError`, a raised `ParseError`, or a Python-level exception that is
not a `SimpleLangError` (`AttributeError`, `NameError`,
`RecursionError`). -/
inductive PExc where
  | synErr (msg : String) (line col : Nat) (expected found : String)
  | parseErr (msg : String) (line col : Nat)
  | py (msg : String)
deriving DecidableEq, Repr

/-- Whether an exception is caught by `except (SyntaxError, ParseError)`. -/
def PExc.isLangError : PExc → Bool
  | .synErr _ _ _ _ _ => true
  | .parseErr _ _ _ => true
  | .py _ => false

/-- `str(e)` of an exception, as interpolated into converted messages
(only ever applied to `py` exceptions, which the guards select). -/
def PExc.pyMsg : PExc → String
  | .synErr m _ _ _ _ => m
  | .parseErr m _ _ => m
  | .py m => m

/-- `str(RecursionError)` surrogate: raised when the modelled call-stack
budget is exhausted, as CPython does past `sys.getrecursionlimit()`. -/
def pyRecursionError : String := "maximum recursion depth exceeded"

/-- `str(AttributeError)` surrogate for `parser.py` line 138: `TokenType`
has no member `INPUT`, so `TokenType.INPUT` raises `AttributeError`. -/
def attrErrorINPUT : String := "type object TokenType has no attribute INPUT"

/-- `str(NameError)` surrogate for `parser.py` line 582: `grammar.py`
defines no `InputNode`, so constructing one raises `NameError`. -/
def nameErrorInputNode : String := "name InputNode is not defined"

/-- Marker for a while-loop in `parser.py` that makes no progress: the
Python original would spin forever.  The loops advance the cursor on every
iteration for EOF-terminated token lists, so with the iteration budget
`tokens.length + 1` used below this marker is unreachable in any run the
claims quantify over. -/
def pyLoopStuck : String := "while loop made no progress"

/-- Result of a parser routine: Python returning normally versus an
exception unwinding, in both cases with the token cursor and the
`ErrorReporter.errors` list at that moment. -/
inductive PRes (α : Type) where
  | ok (val : α) (pos : Nat) (errs : List Diag)
  | err (exc : PExc) (pos : Nat) (errs : List Diag)

/-- Sequencing: on `ok` continue, on `err` let the exception unwind. -/
def PRes.andThen : PRes α → (α → Nat → List Diag → PRes β) → PRes β
  | .ok a p e, f => f a p e
  | .err ex p e, _ => .err ex p e

/-- Report a `SyntaxError` to the ErrorReporter and raise it (the source
always calls `report_error` immediately before `raise`). -/
def raiseSyn (msg : String) (line col : Nat) (expected found : String)
    (pos : Nat) (errs : List Diag) : PRes α :=
  .err (.synErr msg line col expected found) pos
    (errs ++ [.synErr msg line col expected found])

/-! ## Token access (`parser.py` lines 19-41) -/

/-- Placeholder used by `List.getD`/`getLastD` below; Python would raise
`IndexError` on an empty token list, which no claim exercises. -/
def defaultToken : Token := ⟨.EOF, .strV "", 0, 0⟩

/-- `Parser.current_token`: the token at the cursor, or the *last* token
once the cursor is at or past the end. -/
def currentToken (ts : List Token) (pos : Nat) : Token :=
  if pos ≥ ts.length then ts.getLastD defaultToken
  else ts.getD pos defaultToken

/-- `Parser.peek_token`: like `current_token` at `pos + offset`. -/
def peekToken (ts : List Token) (pos offset : Nat) : Token :=
  if pos + offset ≥ ts.length then ts.getLastD defaultToken
  else ts.getD (pos + offset) defaultToken

/-- `Parser.advance`: return the current token; move the cursor forward
only while it is strictly before the last index. -/
def advanceT (ts : List Token) (pos : Nat) : Token × Nat :=
  (currentToken ts pos, if pos < ts.length - 1 then pos + 1 else pos)

/-- `Parser.match`: does the current token have one of the given types? -/
def matchTok (ts : List Token) (pos : Nat) (types : List TokenType) : Bool :=
  (currentToken ts pos).type ∈ types

/-- Rendering of a token value inside a diagnostic (`str(value)`). -/
def TokValue.render : TokValue → String
  | .intV n => toString n
  | .strV s => s

/-- The `found` description used by the source's diagnostics:
the token type's name followed by its value. -/
def foundStr (t : Token) : String := t.type.name ++ " " ++ t.value.render

/-- `Parser.consume` (lines 43-68): take a token of the expected type or
report-and-raise a `SyntaxError`; for semicolon / right-paren /
right-brace the message is overridden with the specialised phrasing
*after* any caller-supplied message. -/
def consume (ts : List Token) (tokenType : TokenType) (errorMessage : String)
    (pos : Nat) (errs : List Diag) : PRes Token :=
  if (currentToken ts pos).type = tokenType then
    let a := advanceT ts pos
    .ok a.1 a.2 errs
  else
    let current := currentToken ts pos
    let base :=
      if errorMessage = "" then
        "Expected " ++ tokenType.name ++ ", found " ++ current.type.name
      else errorMessage
    let msg :=
      if tokenType = .SEMICOLON then "Expected semicolon at end of statement"
      else if tokenType = .RIGHT_PAREN then "Expected right paren to close expression"
      else if tokenType = .RIGHT_BRACE then "Expected right brace to close block"
      else base
    raiseSyn msg current.line current.column tokenType.name (foundStr current) pos errs

/-! ## Panic-mode recovery (`parser.py` lines 70-82) -/

/-- The synchronisation token set of `Parser.synchronize`. -/
def syncSet : List TokenType :=
  [.SEMICOLON, .LEFT_BRACE, .RIGHT_BRACE, .IF, .WHILE, .FOR, .INT, .BOOL, .STRING]

/-- The while-loop of `Parser.synchronize`: skip tokens until EOF or a
synchronisation token.  The iteration budget models the loop's progress;
see `pyLoopStuck`. -/
def syncLoop (ts : List Token) : Nat → Nat → Nat
  | 0, pos => pos
  | it + 1, pos =>
    if (currentToken ts pos).type = .EOF then pos
    else if (currentToken ts pos).type ∈ syncSet then pos
    else syncLoop ts it (advanceT ts pos).2

/-- `Parser.synchronize`: advance one token, then skip to the next
statement boundary. -/
def synchronize (ts : List Token) (pos : Nat) : Nat :=
  syncLoop ts (ts.length + 1) (advanceT ts pos).2


/-! ## While-loops of the parser

Each Python while-loop becomes a recursion on an iteration budget
(`tokens.length + 1` at every call site); running out models a
non-advancing loop, i.e. Python divergence (see `pyLoopStuck`). -/

/-- The operator loop shared by the six binary precedence levels
(`parse_logical_or` ... `parse_multiplicative`): while the current token
is in `ops`, consume it, parse the next-tighter level, and left-fold into
a `BinaryExpression` positioned at the left operand. -/
def binOpLoop (ts : List Token) (ops : List TokenType)
    (sub : Nat → List Diag → PRes Expr) :
    Nat → Expr → Nat → List Diag → PRes Expr
  | 0, _, pos, errs => .err (.py pyLoopStuck) pos errs
  | it + 1, e, pos, errs =>
    if (currentToken ts pos).type ∈ ops then
      let a := advanceT ts pos
      (sub a.2 errs).andThen fun right pos2 errs2 =>
        binOpLoop ts ops sub it
          (.binary e a.1.type right e.lineOf e.colOf) pos2 errs2
    else .ok e pos errs

/-- The statement loop of `Parser.parse_block` (lines 367-370): parse
statements until a right brace or EOF; exceptions unwind (no recovery
inside a block). -/
def blockLoop (ts : List Token) (stmtP : Nat → List Diag → PRes Stmt) :
    Nat → List Stmt → Nat → List Diag → PRes (List Stmt)
  | 0, _, pos, errs => .err (.py pyLoopStuck) pos errs
  | it + 1, acc, pos, errs =>
    if (currentToken ts pos).type = .RIGHT_BRACE ∨ (currentToken ts pos).type = .EOF then
      .ok acc pos errs
    else
      (stmtP pos errs).andThen fun s pos2 errs2 =>
        blockLoop ts stmtP it (acc ++ [s]) pos2 errs2

/-- The comma loop of `Parser.parse_print_statement` (lines 548-550). -/
def printArgsLoop (ts : List Token) (exprP : Nat → List Diag → PRes Expr) :
    Nat → List Expr → Nat → List Diag → PRes (List Expr)
  | 0, _, pos, errs => .err (.py pyLoopStuck) pos errs
  | it + 1, acc, pos, errs =>
    if (currentToken ts pos).type = .COMMA then
      let a := advanceT ts pos
      (exprP a.2 errs).andThen fun e pos2 errs2 =>
        printArgsLoop ts exprP it (acc ++ [e]) pos2 errs2
    else .ok acc pos errs

/-- The statement loop of `Parser.parse_program` (lines 99-105): parse
statements until EOF; a raised `SyntaxError`/`ParseError` is caught and
answered with `synchronize`, any other exception propagates (the
`except` clause at line 104 only catches those two classes). -/
def programLoop (ts : List Token) (stmtP : Nat → List Diag → PRes Stmt) :
    Nat → List Stmt → Nat → List Diag → PRes (List Stmt)
  | 0, _, pos, errs => .err (.py pyLoopStuck) pos errs
  | it + 1, acc, pos, errs =>
    if (currentToken ts pos).type = .EOF then .ok acc pos errs
    else
      match stmtP pos errs with
      | .ok s pos2 errs2 => programLoop ts stmtP it (acc ++ [s]) pos2 errs2
      | .err exc pos2 errs2 =>
          if exc.isLangError then
            programLoop ts stmtP it acc (synchronize ts pos2) errs2
          else .err exc pos2 errs2

/-! ## The recursive-descent routines (`parser.py` lines 109-586)

All routines of the mutual block take the call-stack budget `fuel` as
their first argument and hand `fuel` (already decremented at entry) to
every callee, mirroring one Python stack frame per call.  A branch such
as `match fuel with | 0 => ...` is CPython's `RecursionError` at the
moment the routine is entered. -/

mutual

/-- `Parser.parse_statement` (lines 109-160).  Dispatch on the current
token: print keyword, type keywords, `if`, `while`, `for`, left brace,
identifier followed by `=`.  Any other token reaches line 138, whose
`TokenType.INPUT` attribute access raises `AttributeError` (see
`attrErrorINPUT`), making the invalid-statement report of lines 142-151
dead code.  The `except Exception` clause at line 156 converts any
exception that is not a `SyntaxError`/`ParseError` into a reported
`ParseError` at the current token. -/
def parse_statement (ts : List Token) : Nat → Nat → List Diag → PRes Stmt
  | 0, pos, errs => .err (.py pyRecursionError) pos errs
  | fuel + 1, pos, errs =>
    let body : PRes Stmt :=
      if matchTok ts pos [.PRINT] then parse_print_statement ts fuel pos errs
      else if matchTok ts pos [.INT, .BOOL, .STRING] then parse_declaration ts fuel pos errs
      else if matchTok ts pos [.IF] then parse_if_statement ts fuel pos errs
      else if matchTok ts pos [.WHILE] then parse_while_statement ts fuel pos errs
      else if matchTok ts pos [.FOR] then parse_for_statement ts fuel pos errs
      else if matchTok ts pos [.LEFT_BRACE] then parse_block ts fuel pos errs
      else if matchTok ts pos [.IDENTIFIER] ∧ (peekToken ts pos 1).type = .ASSIGN then
        parse_assignment ts fuel pos errs
      else
        .err (.py attrErrorINPUT) pos errs
    match body with
    | .ok s p e => .ok s p e
    | .err exc p e =>
        if exc.isLangError then .err exc p e
        else
          let cur := currentToken ts p
          let d : Diag := .parseErr ("Error parsing statement: " ++ exc.pyMsg) cur.line cur.column
          .err (.parseErr ("Error parsing statement: " ++ exc.pyMsg) cur.line cur.column) p (e ++ [d])
  termination_by structural fuel _ _ => fuel

/-- `Parser.parse_declaration` (lines 162-205): type keyword, identifier
(report-and-raise if absent), then either `= expression ;` or `;`. -/
def parse_declaration (ts : List Token) : Nat → Nat → List Diag → PRes Stmt
  | 0, pos, errs => .err (.py pyRecursionError) pos errs
  | fuel + 1, pos, errs =>
    let typeTok := currentToken ts pos
    let pos1 := (advanceT ts pos).2
    if (currentToken ts pos1).type = .IDENTIFIER then
      let identTok := currentToken ts pos1
      let pos2 := (advanceT ts pos1).2
      if (currentToken ts pos2).type = .ASSIGN then
        let pos3 := (advanceT ts pos2).2
        (parse_expression ts fuel pos3 errs).andThen fun ex p4 e4 =>
          (consume ts .SEMICOLON "Expected semicolon after declaration" p4 e4).andThen fun _ p5 e5 =>
            .ok (.declareAssign typeTok.type identTok.value ex typeTok.line typeTok.column) p5 e5
      else
        (consume ts .SEMICOLON "Expected semicolon after declaration" pos2 errs).andThen fun _ p3 e3 =>
          .ok (.declare typeTok.type identTok.value typeTok.line typeTok.column) p3 e3
    else
      let cur := currentToken ts pos1
      raiseSyn "Expected identifier after type" cur.line cur.column "identifier" (foundStr cur) pos1 errs

/-- `Parser.parse_assignment` (lines 207-221): identifier (consumed
unconditionally — the caller checked it), `=`, expression, `;`. -/
def parse_assignment (ts : List Token) : Nat → Nat → List Diag → PRes Stmt
  | 0, pos, errs => .err (.py pyRecursionError) pos errs
  | fuel + 1, pos, errs =>
    let a := advanceT ts pos
    (consume ts .ASSIGN "Expected assign in assignment" a.2 errs).andThen fun _ p1 e1 =>
      (parse_expression ts fuel p1 e1).andThen fun ex p2 e2 =>
        (consume ts .SEMICOLON "Expected semicolon after assignment" p2 e2).andThen fun _ p3 e3 =>
          .ok (.assign a.1.value ex a.1.line a.1.column) p3 e3

/-- `Parser.parse_assignment_without_semicolon` (lines 349-360), used for
for-loop init/update clauses. -/
def parse_assignment_without_semicolon (ts : List Token) : Nat → Nat → List Diag → PRes Stmt
  | 0, pos, errs => .err (.py pyRecursionError) pos errs
  | fuel + 1, pos, errs =>
    let a := advanceT ts pos
    (consume ts .ASSIGN "Expected assign in assignment" a.2 errs).andThen fun _ p1 e1 =>
      (parse_expression ts fuel p1 e1).andThen fun ex p2 e2 =>
        .ok (.assign a.1.value ex a.1.line a.1.column) p2 e2

/-- `Parser.parse_if_statement` (lines 223-270): `if ( expression )` then
a mandatory brace-delimited block; optional `else` followed by either a
nested if (else-if chain) or a mandatory brace-delimited block. -/
def parse_if_statement (ts : List Token) : Nat → Nat → List Diag → PRes Stmt
  | 0, pos, errs => .err (.py pyRecursionError) pos errs
  | fuel + 1, pos, errs =>
    let a := advanceT ts pos
    (consume ts .LEFT_PAREN "Expected left paren after agar" a.2 errs).andThen fun _ p1 e1 =>
      (parse_expression ts fuel p1 e1).andThen fun cond p2 e2 =>
        (consume ts .RIGHT_PAREN "Expected right paren after condition" p2 e2).andThen fun _ p3 e3 =>
          if (currentToken ts p3).type = .LEFT_BRACE then
            (parse_block ts fuel p3 e3).andThen fun thenS p4 e4 =>
              if (currentToken ts p4).type = .ELSE then
                let b := advanceT ts p4
                if (currentToken ts b.2).type = .IF then
                  (parse_if_statement ts fuel b.2 e4).andThen fun elseS p5 e5 =>
                    .ok (.ifStmt cond thenS (some elseS) a.1.line a.1.column) p5 e5
                else if (currentToken ts b.2).type = .LEFT_BRACE then
                  (parse_block ts fuel b.2 e4).andThen fun elseS p5 e5 =>
                    .ok (.ifStmt cond thenS (some elseS) a.1.line a.1.column) p5 e5
                else
                  let cur := currentToken ts b.2
                  raiseSyn "Expected left brace to start the body of varna statement"
                    cur.line cur.column "" "" b.2 e4
              else .ok (.ifStmt cond thenS none a.1.line a.1.column) p4 e4
          else
            let cur := currentToken ts p3
            raiseSyn "Expected left brace to start the body of agar statement"
              cur.line cur.column "" "" p3 e3
  termination_by structural fuel _ _ => fuel

/-- `Parser.parse_while_statement` (lines 272-298): `while ( expression )`
then a mandatory brace-delimited block. -/
def parse_while_statement (ts : List Token) : Nat → Nat → List Diag → PRes Stmt
  | 0, pos, errs => .err (.py pyRecursionError) pos errs
  | fuel + 1, pos, errs =>
    let a := advanceT ts pos
    (consume ts .LEFT_PAREN "Expected left paren after jabtak" a.2 errs).andThen fun _ p1 e1 =>
      (parse_expression ts fuel p1 e1).andThen fun cond p2 e2 =>
        (consume ts .RIGHT_PAREN "Expected right paren after condition" p2 e2).andThen fun _ p3 e3 =>
          if (currentToken ts p3).type = .LEFT_BRACE then
            (parse_block ts fuel p3 e3).andThen fun body p4 e4 =>
              .ok (.whileStmt cond body a.1.line a.1.column) p4 e4
          else
            let cur := currentToken ts p3
            raiseSyn "Expected left brace to start the body of jabtak statement"
              cur.line cur.column "" "" p3 e3
  termination_by structural fuel _ _ => fuel

/-- `Parser.parse_for_statement` (lines 300-347): `for (` init `;`
condition `;` update `)` then a mandatory brace-delimited block.  The
init clause is a full declaration (which itself consumes a semicolon), an
assignment without semicolon, or empty (whose semicolon is consumed
here); the update clause is an assignment without semicolon or empty. -/
def parse_for_statement (ts : List Token) : Nat → Nat → List Diag → PRes Stmt
  | 0, pos, errs => .err (.py pyRecursionError) pos errs
  | fuel + 1, pos, errs =>
    let a := advanceT ts pos
    (consume ts .LEFT_PAREN "Expected left paren after tabtak" a.2 errs).andThen fun _ p1 e1 =>
      let initStep : PRes (Option Stmt) :=
        if matchTok ts p1 [.INT, .BOOL, .STRING] then
          (parse_declaration ts fuel p1 e1).andThen fun s p e => .ok (some s) p e
        else if matchTok ts p1 [.IDENTIFIER] then
          (parse_assignment_without_semicolon ts fuel p1 e1).andThen fun s p e => .ok (some s) p e
        else
          (consume ts .SEMICOLON "Expected semicolon after initialization" p1 e1).andThen fun _ p e =>
            .ok none p e
      initStep.andThen fun init p2 e2 =>
        (parse_expression ts fuel p2 e2).andThen fun cond p3 e3 =>
          (consume ts .SEMICOLON "Expected semicolon after condition" p3 e3).andThen fun _ p4 e4 =>
            let updStep : PRes (Option Stmt) :=
              if matchTok ts p4 [.IDENTIFIER] then
                (parse_assignment_without_semicolon ts fuel p4 e4).andThen fun s p e => .ok (some s) p e
              else .ok none p4 e4
            updStep.andThen fun upd p5 e5 =>
              (consume ts .RIGHT_PAREN "Expected right paren after tabtak header" p5 e5).andThen fun _ p6 e6 =>
                if (currentToken ts p6).type = .LEFT_BRACE then
                  (parse_block ts fuel p6 e6).andThen fun body p7 e7 =>
                    .ok (.forStmt init cond upd body a.1.line a.1.column) p7 e7
                else
                  let cur := currentToken ts p6
                  raiseSyn "Expected left brace to start the body of tabtak statement"
                    cur.line cur.column "" "" p6 e6
  termination_by structural fuel _ _ => fuel

/-- `Parser.parse_block` (lines 362-374): consume the left brace, parse
statements until a right brace or EOF, consume the right brace. -/
def parse_block (ts : List Token) : Nat → Nat → List Diag → PRes Stmt
  | 0, pos, errs => .err (.py pyRecursionError) pos errs
  | fuel + 1, pos, errs =>
    let a := advanceT ts pos
    (blockLoop ts (fun p e => parse_statement ts fuel p e) (ts.length + 1) [] a.2 errs).andThen
      fun stmts p2 e2 =>
        (consume ts .RIGHT_BRACE "Expected right brace to close block" p2 e2).andThen fun _ p3 e3 =>
          .ok (.block stmts a.1.line a.1.column) p3 e3
  termination_by structural fuel _ _ => fuel

/-- `Parser.parse_print_statement` (lines 538-559): `dikhao (` one or
more comma-separated expressions `) ;`. -/
def parse_print_statement (ts : List Token) : Nat → Nat → List Diag → PRes Stmt
  | 0, pos, errs => .err (.py pyRecursionError) pos errs
  | fuel + 1, pos, errs =>
    let a := advanceT ts pos
    (consume ts .LEFT_PAREN "Expected left paren after dikhao" a.2 errs).andThen fun _ p1 e1 =>
      (parse_expression ts fuel p1 e1).andThen fun ex1 p2 e2 =>
        (printArgsLoop ts (fun p e => parse_expression ts fuel p e) (ts.length + 1) [ex1] p2 e2).andThen
          fun exs p3 e3 =>
            (consume ts .RIGHT_PAREN "Expected right paren after print arguments" p3 e3).andThen
              fun _ p4 e4 =>
                (consume ts .SEMICOLON "Expected semicolon after print statement" p4 e4).andThen
                  fun _ p5 e5 => .ok (.printStmt exs a.1.line a.1.column) p5 e5

/-- `Parser.parse_expression` (lines 376-378): delegate to the loosest
binary level. -/
def parse_expression (ts : List Token) : Nat → Nat → List Diag → PRes Expr
  | 0, pos, errs => .err (.py pyRecursionError) pos errs
  | fuel + 1, pos, errs => parse_logical_or ts fuel pos errs
  termination_by structural fuel _ _ => fuel

/-- `Parser.parse_logical_or` (lines 380-395). -/
def parse_logical_or (ts : List Token) : Nat → Nat → List Diag → PRes Expr
  | 0, pos, errs => .err (.py pyRecursionError) pos errs
  | fuel + 1, pos, errs =>
    (parse_logical_and ts fuel pos errs).andThen fun e p er =>
      binOpLoop ts [.OR] (fun p2 e2 => parse_logical_and ts fuel p2 e2) (ts.length + 1) e p er
  termination_by structural fuel _ _ => fuel

/-- `Parser.parse_logical_and` (lines 397-412). -/
def parse_logical_and (ts : List Token) : Nat → Nat → List Diag → PRes Expr
  | 0, pos, errs => .err (.py pyRecursionError) pos errs
  | fuel + 1, pos, errs =>
    (parse_equality ts fuel pos errs).andThen fun e p er =>
      binOpLoop ts [.AND] (fun p2 e2 => parse_equality ts fuel p2 e2) (ts.length + 1) e p er
  termination_by structural fuel _ _ => fuel

/-- `Parser.parse_equality` (lines 414-429). -/
def parse_equality (ts : List Token) : Nat → Nat → List Diag → PRes Expr
  | 0, pos, errs => .err (.py pyRecursionError) pos errs
  | fuel + 1, pos, errs =>
    (parse_relational ts fuel pos errs).andThen fun e p er =>
      binOpLoop ts [.EQUAL, .NOT_EQUAL] (fun p2 e2 => parse_relational ts fuel p2 e2)
        (ts.length + 1) e p er
  termination_by structural fuel _ _ => fuel

/-- `Parser.parse_relational` (lines 431-447). -/
def parse_relational (ts : List Token) : Nat → Nat → List Diag → PRes Expr
  | 0, pos, errs => .err (.py pyRecursionError) pos errs
  | fuel + 1, pos, errs =>
    (parse_additive ts fuel pos errs).andThen fun e p er =>
      binOpLoop ts [.LESS_THAN, .GREATER_THAN, .LESS_EQUAL, .GREATER_EQUAL]
        (fun p2 e2 => parse_additive ts fuel p2 e2) (ts.length + 1) e p er
  termination_by structural fuel _ _ => fuel

/-- `Parser.parse_additive` (lines 449-464). -/
def parse_additive (ts : List Token) : Nat → Nat → List Diag → PRes Expr
  | 0, pos, errs => .err (.py pyRecursionError) pos errs
  | fuel + 1, pos, errs =>
    (parse_multiplicative ts fuel pos errs).andThen fun e p er =>
      binOpLoop ts [.PLUS, .MINUS] (fun p2 e2 => parse_multiplicative ts fuel p2 e2)
        (ts.length + 1) e p er
  termination_by structural fuel _ _ => fuel

/-- `Parser.parse_multiplicative` (lines 466-481). -/
def parse_multiplicative (ts : List Token) : Nat → Nat → List Diag → PRes Expr
  | 0, pos, errs => .err (.py pyRecursionError) pos errs
  | fuel + 1, pos, errs =>
    (parse_unary ts fuel pos errs).andThen fun e p er =>
      binOpLoop ts [.MULTIPLY, .DIVIDE, .MODULO] (fun p2 e2 => parse_unary ts fuel p2 e2)
        (ts.length + 1) e p er
  termination_by structural fuel _ _ => fuel

/-- `Parser.parse_unary` (lines 483-495): `!`/`-` recurse (right
associative), otherwise a primary. -/
def parse_unary (ts : List Token) : Nat → Nat → List Diag → PRes Expr
  | 0, pos, errs => .err (.py pyRecursionError) pos errs
  | fuel + 1, pos, errs =>
    if matchTok ts pos [.NOT, .MINUS] then
      let a := advanceT ts pos
      (parse_unary ts fuel a.2 errs).andThen fun operand p e =>
        .ok (.unary a.1.type operand a.1.line a.1.column) p e
    else parse_primary ts fuel pos errs
  termination_by structural fuel _ _ => fuel

/-- `Parser.parse_primary` (lines 497-536): identifier, integer literal,
`true`, `false`, string literal, or a parenthesised expression; anything
else reports-and-raises an expected-expression `SyntaxError`. -/
def parse_primary (ts : List Token) : Nat → Nat → List Diag → PRes Expr
  | 0, pos, errs => .err (.py pyRecursionError) pos errs
  | fuel + 1, pos, errs =>
    let current := currentToken ts pos
    if current.type = .IDENTIFIER then
      let a := advanceT ts pos
      .ok (.identifier a.1.value a.1.line a.1.column) a.2 errs
    else if current.type = .INTEGER then
      let a := advanceT ts pos
      .ok (.integerLit a.1.value a.1.line a.1.column) a.2 errs
    else if current.type = .TRUE then
      let a := advanceT ts pos
      .ok (.booleanLit true a.1.line a.1.column) a.2 errs
    else if current.type = .FALSE then
      let a := advanceT ts pos
      .ok (.booleanLit false a.1.line a.1.column) a.2 errs
    else if current.type = .STRING_LITERAL then
      let a := advanceT ts pos
      .ok (.stringLit a.1.value a.1.line a.1.column) a.2 errs
    else if current.type = .LEFT_PAREN then
      let a := advanceT ts pos
      (parse_expression ts fuel a.2 errs).andThen fun e p1 e1 =>
        (consume ts .RIGHT_PAREN "Expected right paren after expression" p1 e1).andThen
          fun _ p2 e2 => .ok e p2 e2
    else
      raiseSyn "Expected expression" current.line current.column
        "identifier, literal, or left paren" (foundStr current) pos errs
  termination_by structural fuel _ _ => fuel

end

/-- `Parser.parse_input_statement` (lines 561-586).  Dead code: the only
call site, `parser.py` line 139, is unreachable because line 138 raises
`AttributeError` first.  Were it called, the final `InputNode(...)`
constructor would raise `NameError` because `grammar.py` defines no
`InputNode` class; the embedding models that outcome. -/
def parse_input_statement (ts : List Token) : Nat → Nat → List Diag → PRes Stmt
  | 0, pos, errs => .err (.py pyRecursionError) pos errs
  | _ + 1, pos, errs =>
    let a := advanceT ts pos
    (consume ts .LEFT_PAREN "Expected left paren after likho" a.2 errs).andThen fun _ p1 e1 =>
      if (currentToken ts p1).type = .IDENTIFIER then
        let b := advanceT ts p1
        (consume ts .RIGHT_PAREN "Expected right paren after identifier" b.2 e1).andThen
          fun _ p3 e3 =>
            (consume ts .SEMICOLON "Expected semicolon after input statement" p3 e3).andThen
              fun _ p4 e4 => .err (.py nameErrorInputNode) p4 e4
      else
        let cur := currentToken ts p1
        raiseSyn "Expected identifier in input statement" cur.line cur.column
          "identifier" (foundStr cur) p1 e1

/-- `Parser.parse_program` (lines 95-107): run the statement loop with
panic-mode recovery until EOF, then build `Program(statements, 1, 1)`. -/
def parse_program (ts : List Token) : Nat → Nat → List Diag → PRes Program
  | 0, pos, errs => .err (.py pyRecursionError) pos errs
  | fuel + 1, pos, errs =>
    (programLoop ts (fun p e => parse_statement ts fuel p e) (ts.length + 1) [] pos errs).andThen
      fun stmts p e => .ok ⟨stmts, 1, 1⟩ p e

/-- CPython's default recursion limit, the depth budget `Parser.parse`
starts from. -/
def recursionLimit : Nat := 1000

/-- `Parser.parse` (lines 84-93): run `parse_program`; on a raised
exception return `None`, first converting any exception that is *not* a
`SyntaxError`/`ParseError` into a reported generic `ParseError` (with the
default position 0,0 of `errors.py`). -/
def parse (ts : List Token) (errs0 : List Diag) : Option Program × List Diag :=
  match parse_program ts recursionLimit 0 errs0 with
  | .ok prog _ e => (some prog, e)
  | .err exc _ e =>
      if exc.isLangError then (none, e)
      else (none, e ++ [.parseErr ("Unexpected error during parsing: " ++ exc.pyMsg) 0 0])


/-! ## Shape predicates for the control-statement invariant (claim C9) -/

/-- Is this statement a `Block` node? -/
def isBlockB : Stmt → Bool
  | .block _ _ _ => true
  | _ => false

/-- Is this else slot absent, a `Block`, or a nested `IfStatement`? -/
def elseSlotB : Option Stmt → Bool
  | none => true
  | some (.block _ _ _) => true
  | some (.ifStmt _ _ _ _ _) => true
  | some _ => false

/-! ## Lexer lemmas: the scan loop consumes input, so its iteration
budget is irrelevant once it exceeds the input length (termination). -/

theorem length_dropWhile_le (p : Char → Bool) (l : List Char) :
    (l.dropWhile p).length ≤ l.length := by
  induction l with
  | nil => simp
  | cons a l ih =>
      rw [List.dropWhile_cons]
      split
      · exact le_trans ih (by simp)
      · simp

theorem stringLoop_restOf_le (cs : List Char) (line col startCol : Nat) (value : String) :
    (stringLoop cs line col startCol value).restOf.length ≤ cs.length := by
  induction cs, line, col, startCol, value using stringLoop.induct with
  | case1 line col startCol v =>
      rw [stringLoop.eq_def]; simp [StrRes.restOf]
  | case2 rest line col startCol value =>
      rw [stringLoop.eq_def]; simp [StrRes.restOf]
  | case3 line col startCol value h =>
      rw [stringLoop.eq_def]; simp [StrRes.restOf]
  | case4 line col startCol value n rest2 d lc h ih =>
      rw [stringLoop.eq_def]
      simp only [if_neg h, List.length_cons]
      exact le_trans ih (by omega)
  | case5 rest line col startCol value h1 h2 =>
      rw [stringLoop.eq_def]; simp [StrRes.restOf]
  | case6 c rest line col startCol value h1 h2 h3 ih =>
      rw [stringLoop.eq_def]
      simp only [if_neg h1, if_neg h2, if_neg h3, List.length_cons]
      exact le_trans ih (by omega)

theorem read_string_literal_restOf_le (rest : List Char) (line col : Nat) :
    (read_string_literal ('"' :: rest) line col).restOf.length ≤ rest.length := by
  simpa [read_string_literal] using stringLoop_restOf_le rest line (col + 1) col ""

theorem lexStep_cs_le (c : Char) (rest : List Char) (line col : Nat)
    (toks : List Token) (errs : List LexErr) :
    (lexStep c rest line col toks errs).cs.length ≤ rest.length := by
  unfold lexStep
  split_ifs with h1 h2 h3 h4 h5 h6
  · simp
  · simp
  · exact length_dropWhile_le _ _
  · subst h4
    have hb := read_string_literal_restOf_le rest line col
    rcases hs : read_string_literal ('"' :: rest) line col with ⟨v, rest2, l2, c2⟩ | ⟨e, rest2, l2, c2⟩ <;>
      simp only [hs, StrRes.restOf] at hb ⊢
    · exact hb
    · cases rest2 with
      | nil => simp
      | cons x xs =>
          simp only [List.length_cons] at hb
          simp only []
          omega
  · exact length_dropWhile_le _ _
  · exact length_dropWhile_le _ _
  · cases hh : rest.head? with
    | some c2 =>
        simp only [hh]
        cases hd : DOUBLE_CHAR_TOKENS c c2 with
        | some tt =>
            simp only [hd]
            cases rest <;> simp
        | none =>
            simp only [hd]
            cases hsg : SINGLE_CHAR_TOKENS c <;> simp [hsg]
    | none =>
        simp only [hh]
        cases hsg : SINGLE_CHAR_TOKENS c <;> simp [hsg]

theorem tokenizeLoop_fuel (f1 : Nat) :
    ∀ (f2 : Nat) (st : LoopSt), st.cs.length < f1 → st.cs.length < f2 →
      tokenizeLoop f1 st = tokenizeLoop f2 st := by
  induction f1 with
  | zero => intro f2 st h1 h2; omega
  | succ f ih =>
      intro f2 st h1 h2
      cases f2 with
      | zero => omega
      | succ g =>
          obtain ⟨cs, line, col, toks, errs⟩ := st
          cases cs with
          | nil => simp [tokenizeLoop]
          | cons c rest =>
              simp only [tokenizeLoop]
              have hl := lexStep_cs_le c rest line col toks errs
              simp only [List.length_cons] at h1 h2
              exact ih g (lexStep c rest line col toks errs) (by omega) (by omega)

/-- The token list of `tokenize` always ends in the EOF token at the
final cursor position (shared by several claims). -/
theorem tokenize_ends_eof (source : List Char) :
    (tokenize source).tokens ≠ [] ∧
      (tokenize source).tokens.getLast? =
        some ⟨.EOF, .strV "", (tokenize source).line, (tokenize source).col⟩ := by
  unfold tokenize
  refine ⟨by simp, ?_⟩
  simp [List.getLast?_concat]


/-! ## Parser lemmas: classification of escaping exceptions (claim C2) -/

theorem programLoop_err_isPy (ts : List Token) (stmtP : Nat → List Diag → PRes Stmt) :
    ∀ (it : Nat) (acc : List Stmt) (pos : Nat) (errs : List Diag) {exc : PExc} {p : Nat}
      {er : List Diag}, programLoop ts stmtP it acc pos errs = .err exc p er →
      exc.isLangError = false := by
  intro it
  induction it with
  | zero =>
      intro acc pos errs exc p er h
      simp only [programLoop] at h
      cases h
      rfl
  | succ it ih =>
      intro acc pos errs exc p er h
      simp only [programLoop] at h
      split at h
      · cases h
      · split at h
        · exact ih _ _ _ h
        · split at h
          · exact ih _ _ _ h
          · rename_i hlang
            cases h
            simpa using hlang

theorem parse_program_err_isPy (ts : List Token) (fuel pos : Nat) (errs : List Diag)
    {exc : PExc} {p : Nat} {er : List Diag}
    (h : parse_program ts fuel pos errs = .err exc p er) : exc.isLangError = false := by
  cases fuel with
  | zero =>
      simp only [parse_program] at h
      cases h
      rfl
  | succ fuel =>
      simp only [parse_program] at h
      rcases hpl : programLoop ts (fun p e => parse_statement ts fuel p e)
          (ts.length + 1) [] pos errs with ⟨stmts, p2, e2⟩ | ⟨exc2, p2, e2⟩ <;>
        rw [hpl] at h <;> simp only [PRes.andThen] at h
      · cases h
      · cases h
        exact programLoop_err_isPy ts _ _ _ _ _ hpl

/-! ## Parser lemmas: synchronize advances and stays in bounds (claim C6) -/

theorem syncLoop_ge (ts : List Token) (it : Nat) :
    ∀ pos : Nat, pos ≤ syncLoop ts it pos := by
  induction it with
  | zero => intro pos; simp [syncLoop]
  | succ it ih =>
      intro pos
      simp only [syncLoop]
      split
      · exact le_refl pos
      · split
        · exact le_refl pos
        · refine le_trans ?_ (ih (advanceT ts pos).2)
          simp only [advanceT]
          split <;> omega

theorem syncLoop_le (ts : List Token) (it : Nat) :
    ∀ pos : Nat, pos ≤ ts.length - 1 → syncLoop ts it pos ≤ ts.length - 1 := by
  induction it with
  | zero => intro pos h; simpa [syncLoop] using h
  | succ it ih =>
      intro pos h
      simp only [syncLoop]
      split
      · exact h
      · split
        · exact h
        · refine ih (advanceT ts pos).2 ?_
          simp only [advanceT]
          split <;> omega

theorem synchronize_gt (ts : List Token) (pos : Nat) (h : pos < ts.length - 1) :
    pos < synchronize ts pos := by
  unfold synchronize
  have h2 : (advanceT ts pos).2 = pos + 1 := by
    simp only [advanceT]
    rw [if_pos h]
  rw [h2]
  exact lt_of_lt_of_le (Nat.lt_succ_self pos) (syncLoop_ge ts (ts.length + 1) (pos + 1))

theorem synchronize_le (ts : List Token) (pos : Nat) (h : pos ≤ ts.length - 1) :
    synchronize ts pos ≤ ts.length - 1 := by
  unfold synchronize
  refine syncLoop_le ts (ts.length + 1) (advanceT ts pos).2 ?_
  simp only [advanceT]
  split <;> omega


/-! ## Parser lemmas: shapes of control-statement nodes (claim C9) -/

theorem PRes.andThen_ok {α β : Type} {r : PRes α} {f : α → Nat → List Diag → PRes β}
    {b : β} {p : Nat} {e : List Diag} (h : r.andThen f = .ok b p e) :
    ∃ a p1 e1, r = .ok a p1 e1 ∧ f a p1 e1 = .ok b p e := by
  cases r with
  | ok a p1 e1 => exact ⟨a, p1, e1, rfl, h⟩
  | err ex p1 e1 => simp [PRes.andThen] at h

theorem parse_block_shape (ts : List Token) (fuel pos : Nat) (errs : List Diag)
    {s : Stmt} {p : Nat} {e : List Diag}
    (h : parse_block ts fuel pos errs = .ok s p e) : ∃ sts l c, s = .block sts l c := by
  cases fuel with
  | zero =>
      simp only [parse_block] at h
      cases h
  | succ fuel =>
      simp only [parse_block] at h
      obtain ⟨sts, p2, e2, hb, h⟩ := PRes.andThen_ok h
      obtain ⟨t3, p3, e3, hc, h⟩ := PRes.andThen_ok h
      cases h
      exact ⟨sts, _, _, rfl⟩

theorem parse_if_shape (ts : List Token) : ∀ (fuel pos : Nat) (errs : List Diag)
    {s : Stmt} {p : Nat} {e : List Diag},
    parse_if_statement ts fuel pos errs = .ok s p e →
    ∃ cond thn els l c, s = .ifStmt cond thn els l c ∧ isBlockB thn = true ∧ elseSlotB els = true := by
  intro fuel
  induction fuel with
  | zero =>
      intro pos errs s p e h
      simp only [parse_if_statement] at h
      cases h
  | succ fuel ih =>
      intro pos errs s p e h
      simp only [parse_if_statement] at h
      obtain ⟨t1, p1, e1, hc1, h⟩ := PRes.andThen_ok h
      obtain ⟨cond, p2, e2, he, h⟩ := PRes.andThen_ok h
      obtain ⟨t3, p3, e3, hc2, h⟩ := PRes.andThen_ok h
      split at h
      · obtain ⟨thn, p4, e4, hb, h⟩ := PRes.andThen_ok h
        obtain ⟨sts, bl, bc, hthn⟩ := parse_block_shape ts fuel p3 e3 hb
        subst hthn
        split at h
        · split at h
          · obtain ⟨es, p5, e5, hi, h⟩ := PRes.andThen_ok h
            obtain ⟨c2, t2, el2, l2, co2, hes, hth2, hel2⟩ := ih _ _ hi
            subst hes
            cases h
            exact ⟨cond, _, _, _, _, rfl, rfl, rfl⟩
          · split at h
            · obtain ⟨es, p5, e5, hb2, h⟩ := PRes.andThen_ok h
              obtain ⟨sts2, bl2, bc2, hes⟩ := parse_block_shape ts fuel _ _ hb2
              subst hes
              cases h
              exact ⟨cond, _, _, _, _, rfl, rfl, rfl⟩
            · simp only [raiseSyn] at h
              cases h
        · cases h
          exact ⟨cond, _, _, _, _, rfl, rfl, rfl⟩
      · simp only [raiseSyn] at h
        cases h

theorem parse_while_shape (ts : List Token) (fuel pos : Nat) (errs : List Diag)
    {s : Stmt} {p : Nat} {e : List Diag}
    (h : parse_while_statement ts fuel pos errs = .ok s p e) :
    ∃ cond body l c, s = .whileStmt cond body l c ∧ isBlockB body = true := by
  cases fuel with
  | zero =>
      simp only [parse_while_statement] at h
      cases h
  | succ fuel =>
      simp only [parse_while_statement] at h
      obtain ⟨t1, p1, e1, hc1, h⟩ := PRes.andThen_ok h
      obtain ⟨cond, p2, e2, he, h⟩ := PRes.andThen_ok h
      obtain ⟨t3, p3, e3, hc2, h⟩ := PRes.andThen_ok h
      split at h
      · obtain ⟨body, p4, e4, hb, h⟩ := PRes.andThen_ok h
        obtain ⟨sts, bl, bc, hbody⟩ := parse_block_shape ts fuel p3 e3 hb
        subst hbody
        cases h
        exact ⟨cond, _, _, _, rfl, rfl⟩
      · simp only [raiseSyn] at h
        cases h

theorem parse_for_shape (ts : List Token) (fuel pos : Nat) (errs : List Diag)
    {s : Stmt} {p : Nat} {e : List Diag}
    (h : parse_for_statement ts fuel pos errs = .ok s p e) :
    ∃ init cond upd body l c, s = .forStmt init cond upd body l c ∧ isBlockB body = true := by
  cases fuel with
  | zero =>
      simp only [parse_for_statement] at h
      cases h
  | succ fuel =>
      simp only [parse_for_statement] at h
      obtain ⟨t1, p1, e1, hc1, h⟩ := PRes.andThen_ok h
      obtain ⟨init, p2, e2, hinit, h⟩ := PRes.andThen_ok h
      obtain ⟨cond, p3, e3, he, h⟩ := PRes.andThen_ok h
      obtain ⟨t4, p4, e4, hc2, h⟩ := PRes.andThen_ok h
      obtain ⟨upd, p5, e5, hupd, h⟩ := PRes.andThen_ok h
      obtain ⟨t6, p6, e6, hc3, h⟩ := PRes.andThen_ok h
      split at h
      · obtain ⟨body, p7, e7, hb, h⟩ := PRes.andThen_ok h
        obtain ⟨sts, bl, bc, hbody⟩ := parse_block_shape ts fuel p6 e6 hb
        subst hbody
        cases h
        exact ⟨init, cond, upd, _, _, _, rfl, rfl⟩
      · simp only [raiseSyn] at h
        cases h


/-! ## Lexer lemma: every unterminated-string error carries the opening
quote column (claim C7) -/

theorem stringLoop_err_shape (cs : List Char) (line col startCol : Nat) (value : String) :
    ∀ {err : LexErr} {r : List Char} {l2 c2 : Nat},
      stringLoop cs line col startCol value = .err err r l2 c2 →
      err.col = startCol ∧ err.msg = "Unterminated string literal" := by
  induction cs, line, col, startCol, value using stringLoop.induct with
  | case1 line col startCol v =>
      intro err r l2 c2 h
      rw [stringLoop.eq_def] at h
      cases h
      exact ⟨rfl, rfl⟩
  | case2 rest line col startCol value =>
      intro err r l2 c2 h
      rw [stringLoop.eq_def] at h
      simp only [if_pos rfl] at h
      cases h
  | case3 line col startCol value hq =>
      intro err r l2 c2 h
      rw [stringLoop.eq_def] at h
      simp only [if_neg hq, if_pos rfl] at h
      cases h
      exact ⟨rfl, rfl⟩
  | case4 line col startCol value n rest2 d lc =>
      rename_i hq ih
      intro err r l2 c2 h
      rw [stringLoop.eq_def] at h
      simp only [if_neg hq, if_pos rfl] at h
      exact ih h
  | case5 rest line col startCol value hq hb =>
      intro err r l2 c2 h
      rw [stringLoop.eq_def] at h
      simp only [if_neg hq, if_neg hb, if_pos rfl] at h
      cases h
      exact ⟨rfl, rfl⟩
  | case6 c rest line col startCol value hq hb hn ih =>
      intro err r l2 c2 h
      rw [stringLoop.eq_def] at h
      simp only [if_neg hq, if_neg hb, if_neg hn] at h
      exact ih h

/-! ## Claim theorems -/

/-- C1. For every finite input string, `tokenize` terminates without
raising an exception and returns a token sequence whose final element is
an EOF token carrying the line/column of the cursor at end of input,
regardless of how many malformed characters the input contains (each
malformed character is reported to the ErrorReporter and skipped by the
loop branches of `lexStep`).  The first conjunct is the termination
content: the scan loop's result does not depend on its iteration budget
once the budget exceeds the input length, because every iteration
consumes at least one character (`lexStep_cs_le`). -/
theorem C1_tokenize_total (source : List Char) :
    (∀ f1 f2 : Nat, source.length < f1 → source.length < f2 →
        tokenizeLoop f1 ⟨source, 1, 1, [], []⟩ = tokenizeLoop f2 ⟨source, 1, 1, [], []⟩) ∧
    (tokenize source).tokens ≠ [] ∧
    (tokenize source).tokens.getLast? =
      some ⟨.EOF, .strV "", (tokenize source).line, (tokenize source).col⟩ :=
  ⟨fun f1 f2 h1 h2 => tokenizeLoop_fuel f1 f2 _ h1 h2,
   (tokenize_ends_eof source).1, (tokenize_ends_eof source).2⟩

/-- Witness for C1 at the concrete malformed input `a@`: the scanner
finishes with the same result under budgets 3 and 9, and the token list
ends with EOF at line 1, column 3. -/
theorem C1_tokenize_total_witness :
    tokenizeLoop 3 ⟨"a@".toList, 1, 1, [], []⟩ = tokenizeLoop 9 ⟨"a@".toList, 1, 1, [], []⟩ ∧
    (tokenize "a@".toList).tokens ≠ [] ∧
    (tokenize "a@".toList).tokens.getLast? = some ⟨.EOF, .strV "", 1, 3⟩ :=
  ⟨(C1_tokenize_total "a@".toList).1 3 9 (by decide) (by decide),
   (C1_tokenize_total "a@".toList).2.1, (C1_tokenize_total "a@".toList).2.2⟩

/-- C2. `Parser.parse` never lets an exception escape: for every token
list and initial reporter state it returns either `some program`, or
`none` with a non-empty error list — so success is distinguishable from
failure purely by the error count.  (A `SyntaxError`/`ParseError` can
never escape `parse_program` — `parse_program_err_isPy` — and any other
escaping exception is converted by `parse` into the generic
parse-error diagnostic before `None` is returned.) -/
theorem C2_parse_returns_or_reports (ts : List Token) (errs0 : List Diag) :
    (∃ prog e, parse ts errs0 = (some prog, e)) ∨
    (∃ e, parse ts errs0 = (none, e) ∧ e ≠ []) := by
  unfold parse
  rcases hp : parse_program ts recursionLimit 0 errs0 with ⟨prog, p, e⟩ | ⟨exc, p, e⟩
  · exact Or.inl ⟨prog, e, rfl⟩
  · right
    have hy := parse_program_err_isPy ts recursionLimit 0 errs0 hp
    refine ⟨e ++ [.parseErr ("Unexpected error during parsing: " ++ exc.pyMsg) 0 0], ?_, by simp⟩
    simp [hy]

/-- C3 (code bug).  At a statement position matching no dispatch case —
here the source `;` — the parser does *not* report the
"Invalid statement" `SyntaxError` of `parser.py` lines 142-151: line 138
evaluates the non-existent `TokenType.INPUT` first, raising
`AttributeError`, which the handler at line 156 converts into a generic
`ParseError` ("Error parsing statement: ...").  The invalid-statement
report is dead code. -/
theorem C3_invalid_statement_is_attribute_error :
    parse (tokenize ";".toList).tokens [] =
      (some ⟨[], 1, 1⟩,
        [.parseErr "Error parsing statement: type object TokenType has no attribute INPUT" 1 1]) := by
  rfl

/-- C4 (code bug).  No input statement can ever be parsed: `likho` is not
in `KEYWORDS` (it lexes as a plain `IDENTIFIER`), `TokenType.INPUT` does
not exist, and `grammar.py` defines no `InputNode`.  Parsing
`likho(x);` therefore reports two generic parse errors (one at `likho`,
one at `;` after recovery) and produces an empty program instead of an
input node. -/
theorem C4_input_statement_never_constructed :
    (tokenize "likho(x);".toList).tokens.head?.map Token.type = some .IDENTIFIER ∧
    parse (tokenize "likho(x);".toList).tokens [] =
      (some ⟨[], 1, 1⟩,
        [.parseErr "Error parsing statement: type object TokenType has no attribute INPUT" 1 1,
         .parseErr "Error parsing statement: type object TokenType has no attribute INPUT" 1 9]) :=
  ⟨rfl, rfl⟩

/-- C5.  Expression parsing follows the precedence cascade with
left-associative binary operators: `1 + 2 * 3` parses as a `+` node whose
*right* child is the `*` node, and `1 - 2 - 3` parses as the left-nested
`((1-2)-3)`. -/
theorem C5_precedence_and_associativity :
    parse_expression (tokenize "1 + 2 * 3".toList).tokens recursionLimit 0 [] =
      .ok (.binary (.integerLit (.intV 1) 1 1) .PLUS
            (.binary (.integerLit (.intV 2) 1 5) .MULTIPLY (.integerLit (.intV 3) 1 9) 1 5)
            1 1) 5 [] ∧
    parse_expression (tokenize "1 - 2 - 3".toList).tokens recursionLimit 0 [] =
      .ok (.binary
            (.binary (.integerLit (.intV 1) 1 1) .MINUS (.integerLit (.intV 2) 1 5) 1 1)
            .MINUS (.integerLit (.intV 3) 1 9) 1 1) 5 [] :=
  ⟨rfl, rfl⟩

/-- Counterexample to C6 as stated.  (a) The program
`int ; int a = 5; int 4;` consists of two malformed statements separated
by a valid `;`-terminated statement, yet parsing reports *three* errors,
not two: recovery from `int 4;` synchronises *at* the `;`, and a bare
`;` is itself an invalid statement start, producing a third diagnostic.
(b) A recovery step taken at the final EOF token does not advance the
cursor: for the two-token program `int`, `synchronize` at position 1
returns position 1. -/
theorem C6_recovery_counterexample :
    (parse (tokenize "int ; int a = 5; int 4;".toList).tokens []).2.length = 3 ∧
    synchronize (tokenize "int".toList).tokens 1 = 1 :=
  ⟨rfl, rfl⟩

/-- C6 amended.  For the program `int ; int a = 5; int ;` (where each
recovery lands on a statement-starting keyword or EOF) exactly two syntax
errors are reported; every recovery step taken strictly before the final
token advances the cursor by at least one token, and the recovery cursor
never moves past the final token, so recovery terminates at or before
end-of-input. -/
theorem C6_recovery_bounds_amended :
    (parse (tokenize "int ; int a = 5; int ;".toList).tokens []).2.length = 2 ∧
    (∀ (ts : List Token) (pos : Nat), pos < ts.length - 1 → pos < synchronize ts pos) ∧
    (∀ (ts : List Token) (pos : Nat), pos ≤ ts.length - 1 → synchronize ts pos ≤ ts.length - 1) :=
  ⟨rfl, synchronize_gt, synchronize_le⟩

/-- Witness for C6 amended: on the two-token program `int`, a recovery
step from position 0 advances the cursor and stays at or before the EOF
index 1. -/
theorem C6_recovery_bounds_amended_witness :
    0 < synchronize (tokenize "int".toList).tokens 0 ∧
    synchronize (tokenize "int".toList).tokens 0 ≤ 1 :=
  ⟨C6_recovery_bounds_amended.2.1 (tokenize "int".toList).tokens 0 (by decide),
   C6_recovery_bounds_amended.2.2 (tokenize "int".toList).tokens 0 (by decide)⟩

/-- Counterexample to C7 as stated.  The unterminated literal
`"\<newline>abc` (opening quote at line 1, column 1; end of input reached
before any closing quote) is reported at *line 2*, column 1 — not at the
opening quote's line: the escaped newline is consumed inside the literal
and `read_string_literal` raises at `(self.line, start_col)`, the current
line paired with the opening column. -/
theorem C7_unterminated_position_counterexample :
    (tokenize ('"' :: '\\' :: '\n' :: "abc".toList)).errors =
      [⟨"Unterminated string literal", 2, 1⟩] ∧ (2 : Nat) ≠ 1 :=
  ⟨rfl, by decide⟩

/-- C7 amended.  Every unterminated string literal is reported with the
*column* of the opening quote (the line is the scanner's current line at
the failure, which can differ from the opening quote's line only when an
escaped newline was consumed inside the literal); the scanner then
continues and still terminates with an EOF token. -/
theorem C7_unterminated_column_amended :
    (∀ (rest : List Char) (line col : Nat) (err : LexErr) (r : List Char) (l2 c2 : Nat),
        read_string_literal ('"' :: rest) line col = .err err r l2 c2 →
          err.col = col ∧ err.msg = "Unterminated string literal") ∧
    (∀ source : List Char,
        (tokenize source).tokens ≠ [] ∧
        (tokenize source).tokens.getLast? =
          some ⟨.EOF, .strV "", (tokenize source).line, (tokenize source).col⟩) := by
  constructor
  · intro rest line col err r l2 c2 h
    simp only [read_string_literal] at h
    exact stringLoop_err_shape rest line (col + 1) col "" h
  · exact tokenize_ends_eof

/-- Witness for C7 amended at the spec's own example `"abc` (no closing
quote, end of input): the error is reported at column 1, the column of
the opening quote, and scanning still ends with an EOF token. -/
theorem C7_unterminated_column_amended_witness :
    (⟨"Unterminated string literal", 1, 1⟩ : LexErr).col = 1 ∧
    (⟨"Unterminated string literal", 1, 1⟩ : LexErr).msg = "Unterminated string literal" ∧
    (tokenize "\"abc".toList).tokens.getLast? = some ⟨.EOF, .strV "", 1, 5⟩ :=
  ⟨(C7_unterminated_column_amended.1 "abc".toList 1 1
      ⟨"Unterminated string literal", 1, 1⟩ [] 1 5 rfl).1,
   (C7_unterminated_column_amended.1 "abc".toList 1 1
      ⟨"Unterminated string literal", 1, 1⟩ [] 1 5 rfl).2,
   (C7_unterminated_column_amended.2 "\"abc".toList).2⟩

/-- C8.  Escape decoding in well-terminated string literals: for *every*
character `ch`, the literal `"\ch"` decodes to the single character
given by the table — `n`, `t`, `r`, backslash and quote to their standard
meanings, anything else to itself, with no error; concretely, the source
literal `"a\nb"` decodes to `a`, newline, `b` with no error, and
`"\q"` decodes to `q` with no error. -/
theorem C8_escape_decoding :
    (∀ (ch : Char) (l c : Nat),
        read_string_literal ['"', '\\', ch, '"'] l c =
          .ok ⟨[if ch = 'n' then '\n' else if ch = 't' then '\t' else if ch = 'r' then '\r'
                else if ch = '\\' then '\\' else if ch = '"' then '"' else ch]⟩
            [] (advancePos ch l (c + 1 + 1)).1 ((advancePos ch l (c + 1 + 1)).2 + 1)) ∧
    (tokenize "\"a\\nb\"".toList).tokens =
      [⟨.STRING_LITERAL, .strV "a\nb", 1, 1⟩, ⟨.EOF, .strV "", 1, 7⟩] ∧
    (tokenize "\"a\\nb\"".toList).errors = [] ∧
    (tokenize "\"\\q\"".toList).tokens =
      [⟨.STRING_LITERAL, .strV "q", 1, 1⟩, ⟨.EOF, .strV "", 1, 5⟩] ∧
    (tokenize "\"\\q\"".toList).errors = [] := by
  refine ⟨fun ch l c => ?_, rfl, rfl, rfl, rfl⟩
  show stringLoop ['\\', ch, '"'] l (c + 1) c "" = _
  rw [stringLoop.eq_def]
  simp only [if_neg (by decide : ¬('\\' : Char) = '"'), if_pos rfl]
  rw [stringLoop.eq_def]
  simp only [if_pos rfl]
  simp [String.push]

/-- C9.  Every `IfStatement`, `WhileStatement` and `ForStatement` node
the parser constructs (each is only ever constructed as the successful
result of its parsing routine) has a `Block` as its then-branch/body,
and an `IfStatement`'s else slot is always absent, a `Block`, or a
nested `IfStatement`; a non-brace token in body position instead raises
a syntax error, as the concrete run on `while (x) x = 1;` shows. -/
theorem C9_control_bodies_are_blocks :
    (∀ (ts : List Token) (fuel pos : Nat) (errs : List Diag) (s : Stmt) (p : Nat)
        (e : List Diag), parse_if_statement ts fuel pos errs = .ok s p e →
        ∃ cond thn els l c, s = .ifStmt cond thn els l c ∧
          isBlockB thn = true ∧ elseSlotB els = true) ∧
    (∀ (ts : List Token) (fuel pos : Nat) (errs : List Diag) (s : Stmt) (p : Nat)
        (e : List Diag), parse_while_statement ts fuel pos errs = .ok s p e →
        ∃ cond body l c, s = .whileStmt cond body l c ∧ isBlockB body = true) ∧
    (∀ (ts : List Token) (fuel pos : Nat) (errs : List Diag) (s : Stmt) (p : Nat)
        (e : List Diag), parse_for_statement ts fuel pos errs = .ok s p e →
        ∃ init cond upd body l c, s = .forStmt init cond upd body l c ∧ isBlockB body = true) ∧
    (parse (tokenize "while (x) x = 1;".toList).tokens []).2 =
      [.synErr "Expected left brace to start the body of jabtak statement" 1 11 "" "",
       .parseErr "Error parsing statement: type object TokenType has no attribute INPUT" 1 16] :=
  ⟨fun ts fuel pos errs _s _p _e h => parse_if_shape ts fuel pos errs h,
   fun ts fuel pos errs _s _p _e h => parse_while_shape ts fuel pos errs h,
   fun ts fuel pos errs _s _p _e h => parse_for_shape ts fuel pos errs h,
   rfl⟩

/-- Witness for C9 at the concrete source `if (x) { } else { }`: the
returned node is an if whose then-branch is a `Block` and whose else slot
is a `Block`. -/
theorem C9_control_bodies_are_blocks_witness :
    ∃ cond thn els l c,
      (Stmt.ifStmt (.identifier (.strV "x") 1 5) (.block [] 1 8)
          (some (.block [] 1 17)) 1 1) = .ifStmt cond thn els l c ∧
        isBlockB thn = true ∧ elseSlotB els = true :=
  C9_control_bodies_are_blocks.1
    (tokenize "if (x) \x7b \x7d else \x7b \x7d".toList).tokens 50 0 []
    (Stmt.ifStmt (.identifier (.strV "x") 1 5) (.block [] 1 8)
      (some (.block [] 1 17)) 1 1) 9 [] rfl

/-- C10.  Token access is total and in-bounds for every non-empty token
list: `current_token` and `peek_token` return the final token whenever
the requested position is at or past the end, and `advance` either
leaves the cursor in place or moves it one step while staying at or
before the final token's index. -/
theorem C10_token_access_bounds (ts : List Token) (pos off : Nat) (h : ts ≠ []) :
    (pos ≥ ts.length → currentToken ts pos = ts.getLast h) ∧
    (pos + off ≥ ts.length → peekToken ts pos off = ts.getLast h) ∧
    ((advanceT ts pos).2 = pos ∨
      ((advanceT ts pos).2 = pos + 1 ∧ pos + 1 ≤ ts.length - 1)) ∧
    (pos ≤ ts.length - 1 → (advanceT ts pos).2 ≤ ts.length - 1) := by
  have hlast : ts.getLastD defaultToken = ts.getLast h := by
    rw [List.getLastD_eq_getLast?, List.getLast?_eq_getLast ts h]
    rfl
  refine ⟨?_, ?_, ?_, ?_⟩
  · intro hp
    rw [currentToken, if_pos hp, hlast]
  · intro hp
    rw [peekToken, if_pos hp, hlast]
  · simp only [advanceT]
    split
    · right
      exact ⟨rfl, by omega⟩
    · left
      rfl
  · intro hp
    simp only [advanceT]
    split <;> omega

/-- Witness for C10 on the one-token list `[7]` with the out-of-range
position 5: both accessors return the final token and `advance` stays
put at an in-range value. -/
theorem C10_token_access_bounds_witness :
    currentToken [⟨.INTEGER, .intV 7, 2, 3⟩] 5 = ⟨.INTEGER, .intV 7, 2, 3⟩ ∧
    peekToken [⟨.INTEGER, .intV 7, 2, 3⟩] 5 1 = ⟨.INTEGER, .intV 7, 2, 3⟩ ∧
    (advanceT [⟨.INTEGER, .intV 7, 2, 3⟩] 5).2 = 5 := by
  have h := C10_token_access_bounds [⟨.INTEGER, .intV 7, 2, 3⟩] 5 1 (by decide)
  refine ⟨(h.1 (by decide)).trans rfl, (h.2.1 (by decide)).trans rfl, ?_⟩
  rcases h.2.2.1 with h1 | ⟨h1, h2⟩
  · exact h1
  · simp at h2

end SimpleLang
